import Mathlib

/-!
Shallow embedding of the TMMi maturity scoring engine
(`src/utils/scoring.py` of the n2s-tmmi-tracker repository) together with
proofs about the properties its specification states.

Modelling conventions:
* Python `float` scores and percentages are modelled as `ℚ`; every value the
  engine produces is a finite decimal, and the claims are about exact
  arithmetic identities.
* Python `dict` values are modelled as association lists `List (κ × α)` whose
  keys are unique and appear in insertion order (Python 3.7+ dict semantics);
  lookup is the first (hence only) matching entry.
* Python `dict`-comprehension construction from a list (`{a.question_id: a
  for a in answers}`) keeps the *last* binding for a repeated key, so the
  lookup built from it is modelled by searching the reversed list.
* Python truthiness tests on `Optional[str]` fields (`if question.
  specific_goal:`) are modelled by `truthyStr`, which rejects `None` and `""`.
* Python's stable `list.sort(key=...)` is modelled by a stable insertion sort
  (`sortStable`) with a total-preorder comparison on the sort key.
* Formatted message strings (`gating_reason`, the level explanation) are
  modelled by the data interpolated into them: the offending process-area
  name with its percentage, and the chosen level with its percentage.
-/

/- Batteries marks the `Rat` arithmetic operations irreducible; re-opening
them lets concrete engine runs be evaluated by `decide`. -/
unseal Rat.add Rat.mul Rat.inv

/-- `TMMiQuestion` from `src/models/database.py`: one immutable catalog
entry. -/
structure TMMiQuestion where
  id : String
  level : Int
  process_area : String
  question : String
  importance : String
  recommended_activity : String
  reference_url : String
  specific_goal : Option String := none
  specific_practice : Option String := none
  generic_goal : Option String := none
  practice_id : Option String := none
deriving Repr, DecidableEq

/-- `AssessmentAnswer` from `src/models/database.py`. -/
structure AssessmentAnswer where
  question_id : String
  answer : String
  evidence_url : Option String := none
  comment : Option String := none
deriving Repr, DecidableEq

/-- `Assessment` from `src/models/database.py` (metadata plus answers; the
timestamp default is supplied by the caller, not modelled). -/
structure Assessment where
  id : Option Int := none
  timestamp : Option String := none
  reviewer_name : String := ""
  organization : String := ""
  answers : List AssessmentAnswer := []
deriving Repr, DecidableEq

/-- Python truthiness of an `Optional[str]`: `None` and `""` are falsy; a
non-empty string is truthy and yields itself. -/
def truthyStr : Option String → Option String
  | some s => if s = "" then none else some s
  | none => none

/-- First-match lookup in an association list (Python `dict[k]` /
`k in dict`). -/
def lookupD (m : List (κ × α)) (k : κ) [DecidableEq κ] : Option α :=
  (m.find? (fun p => p.1 = k)).map (·.2)

/-- Dict keys in first-insertion order: folding the Python pattern
`if key not in d: d[key] = ...` over a list of keys. -/
def keys_in_order [DecidableEq κ] (l : List κ) : List κ :=
  l.foldl (fun ks k => if k ∈ ks then ks else ks ++ [k]) []

/-- `calculate_answer_score` (scoring.py line 9): `score_map.get(answer, 0.0)`
with `Yes ↦ 1.0`, `Partial ↦ 0.5`, `No ↦ 0.0`, anything else `0.0`. -/
def calculate_answer_score (answer : String) : ℚ :=
  if answer = "Yes" then 1
  else if answer = "Partial" then 1/2
  else 0

/-- `answer_lookup = {ans.question_id: ans for ans in answers}`: the last
answer for a repeated question id wins, so search the reversed list. -/
def answer_lookup (answers : List AssessmentAnswer) (qid : String) :
    Option AssessmentAnswer :=
  answers.reverse.find? (fun a => a.question_id = qid)

/-- Python `str.strip()`: drop leading and trailing whitespace, modelled on
the string's character list. -/
def pyStrip (s : String) : String :=
  String.mk
    (((s.data.dropWhile Char.isWhitespace).reverse.dropWhile
      Char.isWhitespace).reverse)

/-- `answer.evidence_url and answer.evidence_url.strip()` truthiness: the
field is present, non-empty, and non-empty after trimming whitespace. -/
def has_evidence (a : AssessmentAnswer) : Bool :=
  match a.evidence_url with
  | some s => s ≠ "" && pyStrip s ≠ ""
  | none => false

/-- Per-group accumulator of the leaf-level compliance loops
(scoring.py lines 30-50 and 86-106). `part` counts `Partial` answers. -/
structure Tally where
  total_score : ℚ
  answered : Nat
  yes : Nat
  part : Nat
  no : Nat
deriving Repr, DecidableEq

/-- One iteration of the leaf-level compliance loop: skip unanswered
questions; otherwise add the answer's score and bump the answer-value
counter (any answered value other than `Yes`/`Partial` counts as `No`,
exactly as the source's `else` branch does). -/
def tallyStep (lookup : String → Option AssessmentAnswer) (t : Tally)
    (q : TMMiQuestion) : Tally :=
  match lookup q.id with
  | none => t
  | some a =>
    let t' : Tally := { t with
      total_score := t.total_score + calculate_answer_score a.answer,
      answered := t.answered + 1 }
    if a.answer = "Yes" then { t' with yes := t'.yes + 1 }
    else if a.answer = "Partial" then { t' with part := t'.part + 1 }
    else { t' with no := t'.no + 1 }

/-- The leaf-level compliance loop over one group of questions. -/
def tallyBucket (lookup : String → Option AssessmentAnswer)
    (bucket : List TMMiQuestion) : Tally :=
  bucket.foldl (tallyStep lookup) ⟨0, 0, 0, 0, 0⟩

/-- The per-group record produced by `calculate_level_compliance` and
`calculate_process_area_compliance`. -/
structure LevelStats where
  compliance_percentage : ℚ
  total_questions : Nat
  answered_questions : Nat
  yes_count : Nat
  part_count : Nat
  no_count : Nat
  total_score : ℚ
  max_score : Nat
deriving Repr, DecidableEq

/-- Build the per-group record from a bucket of catalog questions
(scoring.py lines 30-63): `max_score = len(bucket)` and
`compliance_percentage = total_score / max_score * 100` when the bucket is
non-empty, else `0`. -/
def bucketStats (lookup : String → Option AssessmentAnswer)
    (bucket : List TMMiQuestion) : LevelStats :=
  let t := tallyBucket lookup bucket
  let max_score := bucket.length
  { compliance_percentage :=
      if max_score > 0 then t.total_score / max_score * 100 else 0,
    total_questions := bucket.length,
    answered_questions := t.answered,
    yes_count := t.yes,
    part_count := t.part,
    no_count := t.no,
    total_score := t.total_score,
    max_score := max_score }

/-- `calculate_level_compliance` (scoring.py lines 15-65): group the catalog
by `question.level` (keys in first-occurrence order, each bucket the
subsequence of questions with that level) and score each bucket. -/
def calculate_level_compliance (questions : List TMMiQuestion)
    (answers : List AssessmentAnswer) : List (Int × LevelStats) :=
  let lookup := answer_lookup answers
  (keys_in_order (questions.map (·.level))).map (fun l =>
    (l, bucketStats lookup (questions.filter (fun q => q.level = l))))

/-- `calculate_process_area_compliance` (scoring.py lines 68-121): identical
loop grouped by `question.process_area` (no truthiness filter: an empty
process-area string is a key like any other). -/
def calculate_process_area_compliance (questions : List TMMiQuestion)
    (answers : List AssessmentAnswer) : List (String × LevelStats) :=
  let lookup := answer_lookup answers
  (keys_in_order (questions.map (·.process_area))).map (fun pa =>
    (pa, bucketStats lookup (questions.filter (fun q => q.process_area = pa))))

/-- The `lower_levels_compliant` inner loop of `determine_current_tmmi_level`
(scoring.py lines 144-149): every level in `range(2, level)` that is present
in the map must sit at or above the threshold; absent levels pass. -/
def lowers_compliant (m : List (Int × LevelStats)) (threshold : ℚ)
    (level : Int) : Bool :=
  ((List.range (level - 2).toNat).map (fun i => (2 : Int) + i)).all (fun l =>
    match lookupD m l with
    | some s => threshold ≤ s.compliance_percentage
    | none => true)

/-- One iteration of the outer loop of `determine_current_tmmi_level`
(scoring.py lines 137-154): promote to `level` when the level is present,
meets the threshold and all present lower levels do too.  The second
component models the explanation string by the data interpolated into it. -/
def det_step (m : List (Int × LevelStats)) (threshold : ℚ)
    (cur : Int × Option (Int × ℚ)) (level : Int) : Int × Option (Int × ℚ) :=
  match lookupD m level with
  | none => cur
  | some s =>
    if threshold ≤ s.compliance_percentage then
      if lowers_compliant m threshold level then
        (level, some (level, s.compliance_percentage))
      else cur
    else cur

/-- `determine_current_tmmi_level` (scoring.py lines 124-156): fold the
promotion step over levels 2,3,4,5 starting from level 1. -/
def determine_current_tmmi_level (m : List (Int × LevelStats))
    (threshold : ℚ := 80) : Int × Option (Int × ℚ) :=
  ([2, 3, 4, 5] : List Int).foldl (det_step m threshold) (1, none)

/-- The record returned by `calculate_evidence_coverage`. -/
structure CoverageRecord where
  percentage : ℚ
  with_evidence : Nat
  total_answers : Nat
deriving Repr, DecidableEq

/-- `calculate_evidence_coverage` (scoring.py lines 210-220). -/
def calculate_evidence_coverage (answers : List AssessmentAnswer) :
    CoverageRecord :=
  let total_answers := answers.length
  if total_answers = 0 then ⟨0, 0, 0⟩
  else
    let with_evidence := answers.countP has_evidence
    ⟨(with_evidence : ℚ) / (total_answers : ℚ) * 100, with_evidence,
      total_answers⟩

/-- `calculate_tmmi_band` (scoring.py lines 267-283). -/
def calculate_tmmi_band (percentage : ℚ) : String :=
  if 85 ≤ percentage then "F"
  else if 50 ≤ percentage then "L"
  else if 15 ≤ percentage then "P"
  else "N"

/-- Per-specific-practice record of `calculate_specific_practice_attainment`.
`question_ids` is the source's accumulated `"questions"` list. -/
structure SPStats where
  question_ids : List String
  total_score : ℚ
  question_count : Nat
  evidence_count : Nat
  attainment_percentage : ℚ
  band : String
  evidence_coverage : ℚ
deriving Repr, DecidableEq

/-- The accumulation loop of `calculate_specific_practice_attainment`
restricted to one practice's bucket: total score and evidence count over the
answered questions (scoring.py lines 310-316). -/
def spTally (lookup : String → Option AssessmentAnswer)
    (bucket : List TMMiQuestion) : ℚ × Nat :=
  bucket.foldl (fun acc q =>
    match lookup q.id with
    | none => acc
    | some a =>
      (acc.1 + calculate_answer_score a.answer,
       if has_evidence a then acc.2 + 1 else acc.2)) (0, 0)

/-- `calculate_specific_practice_attainment` (scoring.py lines 286-330):
group questions with a truthy `specific_practice` by that practice id (keys
in first-occurrence order), then compute attainment, band and evidence
coverage per practice. -/
def calculate_specific_practice_attainment (questions : List TMMiQuestion)
    (answers : List AssessmentAnswer) : List (String × SPStats) :=
  let lookup := answer_lookup answers
  (keys_in_order (questions.filterMap (fun q => truthyStr q.specific_practice))
    ).map (fun sp =>
      let bucket := questions.filter
        (fun q => truthyStr q.specific_practice = some sp)
      let t := spTally lookup bucket
      let qc := bucket.length
      (sp,
        { question_ids := bucket.map (·.id),
          total_score := t.1,
          question_count := qc,
          evidence_count := t.2,
          attainment_percentage := if qc > 0 then t.1 / qc * 100 else 0,
          band := if qc > 0 then calculate_tmmi_band (t.1 / qc * 100) else "N",
          evidence_coverage := if qc > 0 then (t.2 : ℚ) / qc * 100 else 0 }))

/-- Per-specific-goal record of `calculate_specific_goal_attainment`.
`sp_list` is the source's `"specific_practices"` list, which may contain
the same practice id several times (once per backing question). -/
structure SGStats where
  sp_list : List String
  total_attainment : ℚ
  sp_count : Nat
  attainment_percentage : ℚ
  band : String
deriving Repr, DecidableEq

/-- `calculate_specific_goal_attainment` (scoring.py lines 333-365): group
questions with a truthy `specific_goal` by goal id; every question of the
goal whose (raw) `specific_practice` is a key of the practice map appends
that practice's attainment to the goal's running total — note the source
performs no deduplication here, so one practice contributes once per
backing question. -/
def calculate_specific_goal_attainment (questions : List TMMiQuestion)
    (answers : List AssessmentAnswer) : List (String × SGStats) :=
  let sp := calculate_specific_practice_attainment questions answers
  (keys_in_order (questions.filterMap (fun q => truthyStr q.specific_goal))
    ).map (fun sg =>
      let bucket := questions.filter
        (fun q => truthyStr q.specific_goal = some sg)
      let contribs := bucket.filterMap (fun q =>
        match q.specific_practice with
        | some s => (lookupD sp s).map (fun d => (s, d.attainment_percentage))
        | none => none)
      let total := (contribs.map (·.2)).sum
      let cnt := contribs.length
      (sg,
        { sp_list := contribs.map (·.1),
          total_attainment := total,
          sp_count := cnt,
          attainment_percentage := if cnt > 0 then total / cnt else 0,
          band := if cnt > 0 then calculate_tmmi_band (total / cnt) else "N" }))

/-- Per-process-area record of `calculate_process_area_attainment_enhanced`.
`specific_goals` is deduplicated by the source's membership check. -/
structure PAStats where
  specific_goals : List String
  total_attainment : ℚ
  sg_count : Nat
  level : Int
  attainment_percentage : ℚ
  band : String
deriving Repr, DecidableEq

/-- The goal-collection loop of `calculate_process_area_attainment_enhanced`
on one process area's bucket (scoring.py lines 387-392): walk the bucket in
order, and for each question whose `specific_goal` is a key of the goal map
and not yet collected, append `(goal id, goal attainment)`. -/
def paGoalFold (sg : List (String × SGStats)) (bucket : List TMMiQuestion) :
    List (String × ℚ) :=
  bucket.foldl (fun acc q =>
    match q.specific_goal with
    | some s =>
      match lookupD sg s with
      | some d =>
        if (acc.map (·.1)).contains s then acc
        else acc ++ [(s, d.attainment_percentage)]
      | none => acc
    | none => acc) []

/-- `calculate_process_area_attainment_enhanced` (scoring.py lines 368-403):
group questions with a truthy `process_area` by area name; the area's
`level` is the level of its first question; area attainment is the mean of
its (deduplicated) goals' attainments. -/
def calculate_process_area_attainment_enhanced (questions : List TMMiQuestion)
    (answers : List AssessmentAnswer) : List (String × PAStats) :=
  let sg := calculate_specific_goal_attainment questions answers
  (keys_in_order (questions.filterMap (fun q =>
      if q.process_area = "" then none else some q.process_area))).map
    (fun pa =>
      let bucket := questions.filter (fun q => q.process_area = pa)
      let goals := paGoalFold sg bucket
      let total := (goals.map (·.2)).sum
      let cnt := goals.length
      (pa,
        { specific_goals := goals.map (·.1),
          total_attainment := total,
          sg_count := cnt,
          level := ((bucket.head?).map (·.level)).getD 0,
          attainment_percentage := if cnt > 0 then total / cnt else 0,
          band := if cnt > 0 then calculate_tmmi_band (total / cnt) else "N" }))

/-- Python `min(iterable)` over a non-empty list (the source only calls it
on a non-empty collection; `none` stands for the `ValueError` case). -/
def listMin : List ℚ → Option ℚ
  | [] => none
  | x :: xs => some (xs.foldl min x)

/-- The record returned by `calculate_next_level_readiness`. `gating_reason`
models the formatted reason string by the interpolated data: the offending
process-area name and its attainment percentage (`none` for `""`). -/
structure ReadinessRecord where
  current_level : Int
  target_level : Int
  target_level_readiness : ℚ
  conservative_readiness : ℚ
  gating_status : String
  gating_reason : Option (String × ℚ)
  target_process_areas : List (String × PAStats)
  target_pa_count : Nat
  overall_pa_attainment : List (String × PAStats)
deriving Repr, DecidableEq

/-- `calculate_next_level_readiness` (scoring.py lines 406-474).  The
`for ... break` gating loop over the target-level areas is the first match
of `find?`; when not eligible, `conservative_readiness` is the minimum
target-area attainment plus 5 (the minimum exists because the offender
belongs to the list; `getD 0` stands for the unreachable empty case). -/
def calculate_next_level_readiness (questions : List TMMiQuestion)
    (answers : List AssessmentAnswer) : ReadinessRecord :=
  let level_compliance := calculate_level_compliance questions answers
  let current_level := (determine_current_tmmi_level level_compliance 80).1
  let target_level := min (current_level + 1) 5
  let pa := calculate_process_area_attainment_enhanced questions answers
  let target := pa.filter (fun p => p.2.level = target_level)
  let cnt := target.length
  let total := (target.map (·.2.attainment_percentage)).sum
  let target_level_readiness := if cnt > 0 then total / cnt else total
  let offender := target.find? (fun p => p.2.attainment_percentage < 50)
  let conservative := match offender with
    | some _ =>
      ((listMin (target.map (·.2.attainment_percentage))).getD 0) + 5
    | none => target_level_readiness
  { current_level := current_level,
    target_level := target_level,
    target_level_readiness := target_level_readiness,
    conservative_readiness := conservative,
    gating_status := match offender with
      | some _ => "Not Eligible"
      | none => "Eligible",
    gating_reason := offender.map (fun p => (p.1, p.2.attainment_percentage)),
    target_process_areas := target,
    target_pa_count := cnt,
    overall_pa_attainment := pa }

/-- Priority rank used by both gap sorts (`importance_order.get(x, 3)`). -/
def importance_rank (s : String) : Nat :=
  if s = "High" then 0
  else if s = "Medium" then 1
  else if s = "Low" then 2
  else 3

/-- Stable insertion into a sorted list: `x` goes before the first element
it compares `le` to, so elements equal under the sort key keep their
original relative order. -/
def stableInsert (le : α → α → Bool) (x : α) : List α → List α
  | [] => [x]
  | y :: ys => if le x y then x :: y :: ys else y :: stableInsert le x ys

/-- Stable sort modelling Python's `list.sort` with a key function. -/
def sortStable (le : α → α → Bool) : List α → List α
  | [] => []
  | x :: xs => stableInsert le x (sortStable le xs)

/-- The gap record emitted by `get_gap_analysis`. -/
structure GapRecord where
  question_id : String
  level : Int
  process_area : String
  question : String
  current_answer : String
  importance : String
  recommended_activity : String
  reference_url : String
  evidence_url : Option String
  comment : Option String
deriving Repr, DecidableEq

/-- Sort key of `get_gap_analysis` (scoring.py lines 204-205): ascending by
`(importance rank, level)`. -/
def gapLe (a b : GapRecord) : Bool :=
  importance_rank a.importance < importance_rank b.importance ||
    (importance_rank a.importance = importance_rank b.importance &&
      a.level ≤ b.level)

/-- `get_gap_analysis` (scoring.py lines 159-207): every `No`/`Partial`
answer and every unanswered catalog question yields a gap record
(`current_answer = "Not Answered"` for the latter); the result is sorted
stably by `(importance rank, level)`. -/
def get_gap_analysis (questions : List TMMiQuestion)
    (answers : List AssessmentAnswer) : List GapRecord :=
  let lookup := answer_lookup answers
  let gaps := questions.filterMap (fun q =>
    match lookup q.id with
    | some a =>
      if a.answer = "No" ∨ a.answer = "Partial" then
        some { question_id := q.id, level := q.level,
               process_area := q.process_area, question := q.question,
               current_answer := a.answer, importance := q.importance,
               recommended_activity := q.recommended_activity,
               reference_url := q.reference_url,
               evidence_url := a.evidence_url, comment := a.comment }
      else none
    | none =>
      some { question_id := q.id, level := q.level,
             process_area := q.process_area, question := q.question,
             current_answer := "Not Answered", importance := q.importance,
             recommended_activity := q.recommended_activity,
             reference_url := q.reference_url,
             evidence_url := none, comment := none })
  sortStable gapLe gaps

/-- `_generate_action_recommendation` (scoring.py lines 536-556).  The
`sp_data`/`sg_data` dict parameters are `Option`s (`{}` is `none`);
`sp_data.get("attainment_percentage", 0)` is the mapped `getD 0`.  The
`sg_data` parameter is accepted and unused, exactly as in the source. -/
def generate_action_recommendation (q : TMMiQuestion) (a : AssessmentAnswer)
    (sp_data : Option SPStats) (sg_data : Option SGStats) : String :=
  if a.answer = "Not Answered" then
    "Complete assessment for " ++ q.process_area ++ " - " ++ q.question
  else if a.answer = "No" then
    if q.importance = "High" then
      "Implement " ++ q.recommended_activity ++ " - Critical for level " ++
        toString q.level
    else
      "Establish " ++ q.recommended_activity
  else if a.answer = "Partial" then
    if (sp_data.map (·.attainment_percentage)).getD 0 < 50 then
      "Strengthen implementation of " ++ q.recommended_activity
    else
      "Complete implementation of " ++ q.recommended_activity
  else
    "Review and validate current implementation"

/-- The gap record emitted by `extract_gap_analysis_enhanced`. -/
structure EnhancedGap where
  question_id : String
  level : Int
  process_area : String
  specific_goal : Option String
  specific_practice : Option String
  question : String
  current_answer : String
  importance : String
  recommended_activity : String
  reference_url : String
  evidence_url : Option String
  comment : Option String
  sp_attainment : ℚ
  sp_band : String
  sg_attainment : ℚ
  sg_band : String
  action_to_close : String
deriving Repr, DecidableEq

/-- Sort key of `extract_gap_analysis_enhanced` (scoring.py lines 526-531):
ascending by `(importance rank, level, sp attainment)`. -/
def egapLe (a b : EnhancedGap) : Bool :=
  importance_rank a.importance < importance_rank b.importance ||
    (importance_rank a.importance = importance_rank b.importance &&
      (a.level < b.level ||
        (a.level = b.level && a.sp_attainment ≤ b.sp_attainment)))

/-- `extract_gap_analysis_enhanced` (scoring.py lines 477-533): the loop
visits only catalog questions that HAVE an answer (`if question.id in
answer_lookup:` with no `else` branch — unanswered questions are skipped);
an answered question becomes a gap when its answer is `No`/`Partial` or its
(truthy) owning practice scores below 85%.  The source also computes the
enhanced process-area attainment and never uses it; the binding is kept. -/
def extract_gap_analysis_enhanced (questions : List TMMiQuestion)
    (answers : List AssessmentAnswer) : List EnhancedGap :=
  let sp := calculate_specific_practice_attainment questions answers
  let sg := calculate_specific_goal_attainment questions answers
  let _pa := calculate_process_area_attainment_enhanced questions answers
  let lookup := answer_lookup answers
  let gaps := questions.filterMap (fun q =>
    match lookup q.id with
    | none => none
    | some a =>
      let spLow : Bool := match truthyStr q.specific_practice with
        | some s =>
          ((lookupD sp s).map (·.attainment_percentage)).getD 0 < 85
        | none => false
      if (a.answer == "No" || a.answer == "Partial" || spLow) then
        let sp_data : Option SPStats := match truthyStr q.specific_practice with
          | some s => lookupD sp s
          | none => none
        let sg_data : Option SGStats := match truthyStr q.specific_goal with
          | some s => lookupD sg s
          | none => none
        some { question_id := q.id, level := q.level,
               process_area := q.process_area,
               specific_goal := q.specific_goal,
               specific_practice := q.specific_practice,
               question := q.question, current_answer := a.answer,
               importance := q.importance,
               recommended_activity := q.recommended_activity,
               reference_url := q.reference_url,
               evidence_url := a.evidence_url, comment := a.comment,
               sp_attainment := (sp_data.map (·.attainment_percentage)).getD 0,
               sp_band := (sp_data.map (·.band)).getD "N",
               sg_attainment := (sg_data.map (·.attainment_percentage)).getD 0,
               sg_band := (sg_data.map (·.band)).getD "N",
               action_to_close :=
                 generate_action_recommendation q a sp_data sg_data }
      else none)
  sortStable egapLe gaps

/-- Truthiness of `question.generic_goal` as a Bool. -/
def truthyB (o : Option String) : Bool :=
  match o with
  | some s => s ≠ ""
  | none => false

/-- Per-generic-goal record of `calculate_generic_goal_compliance`. -/
structure GGStats where
  level : Int
  attainment_percentage : ℚ
  band : String
  question_count : Nat
  evidence_count : Nat
  evidence_coverage : ℚ
  status : String
deriving Repr, DecidableEq

/-- The `gg_by_level` name table (scoring.py lines 572-577). -/
def gg_name (level : Int) : String :=
  if level = 2 then "GG2 - Managed"
  else if level = 3 then "GG3 - Defined"
  else if level = 4 then "GG4 - Quantitatively Managed"
  else "GG5 - Optimizing"

/-- The accumulation loop of `calculate_generic_goal_compliance` over one
level's tagged questions (scoring.py lines 588-596): total score, question
count and evidence count accumulate ONLY over answered questions. -/
def ggTally (lookup : String → Option AssessmentAnswer)
    (bucket : List TMMiQuestion) : ℚ × Nat × Nat :=
  bucket.foldl (fun acc q =>
    match lookup q.id with
    | none => acc
    | some a =>
      (acc.1 + calculate_answer_score a.answer, acc.2.1 + 1,
       if has_evidence a then acc.2.2 + 1 else acc.2.2)) (0, 0, 0)

/-- `calculate_generic_goal_compliance` (scoring.py lines 559-610): for each
level 2-5, take the catalog questions at that level with a truthy
`generic_goal`; an entry is emitted only when that set is non-empty AND at
least one of them is answered, and the percentage divides by the count of
ANSWERED tagged questions. -/
def calculate_generic_goal_compliance (questions : List TMMiQuestion)
    (answers : List AssessmentAnswer) : List (String × GGStats) :=
  let lookup := answer_lookup answers
  ([2, 3, 4, 5] : List Int).filterMap (fun level =>
    let level_questions := questions.filter
      (fun q => q.level = level && truthyB q.generic_goal)
    if level_questions.isEmpty then none
    else
      let t := ggTally lookup level_questions
      if t.2.1 > 0 then
        let pct := t.1 / (t.2.1 : ℚ) * 100
        some (gg_name level,
          { level := level,
            attainment_percentage := pct,
            band := calculate_tmmi_band pct,
            question_count := t.2.1,
            evidence_count := t.2.2,
            evidence_coverage := (t.2.2 : ℚ) / (t.2.1 : ℚ) * 100,
            status := if 85 ≤ pct then "Met" else "Not Met" })
      else none)

/-- The record returned by `generate_assessment_summary`.  The level
explanation string is modelled by the interpolated data (see
`determine_current_tmmi_level`). -/
structure SummaryRecord where
  assessment_id : Option Int
  timestamp : Option String
  reviewer_name : String
  organization : String
  current_level : Int
  level_explanation : Option (Int × ℚ)
  overall_percentage : ℚ
  total_questions : Nat
  answered_questions : Nat
  yes_answers : Nat
  part_answers : Nat
  no_answers : Nat
  level_compliance : List (Int × LevelStats)
  process_area_compliance : List (String × LevelStats)
  gaps : List GapRecord
  evidence_coverage : CoverageRecord
  high_priority_gaps : List GapRecord
  medium_priority_gaps : List GapRecord
  low_priority_gaps : List GapRecord
deriving Repr, DecidableEq

/-- `generate_assessment_summary` (scoring.py lines 223-262).  Note the
overall statistics: `answered_questions` is the raw length of the answer
list, and `overall_score` sums the scores of ALL answers in the assessment
(no catalog-membership filter), divided by the catalog size. -/
def generate_assessment_summary (questions : List TMMiQuestion)
    (assessment : Assessment) : SummaryRecord :=
  let level_compliance := calculate_level_compliance questions assessment.answers
  let pac := calculate_process_area_compliance questions assessment.answers
  let det := determine_current_tmmi_level level_compliance 80
  let gaps := get_gap_analysis questions assessment.answers
  let cov := calculate_evidence_coverage assessment.answers
  let total_questions := questions.length
  let overall_score :=
    (assessment.answers.map (fun a => calculate_answer_score a.answer)).sum
  { assessment_id := assessment.id,
    timestamp := assessment.timestamp,
    reviewer_name := assessment.reviewer_name,
    organization := assessment.organization,
    current_level := det.1,
    level_explanation := det.2,
    overall_percentage :=
      if total_questions > 0 then overall_score / total_questions * 100 else 0,
    total_questions := total_questions,
    answered_questions := assessment.answers.length,
    yes_answers := assessment.answers.countP (fun a => a.answer = "Yes"),
    part_answers := assessment.answers.countP (fun a => a.answer = "Partial"),
    no_answers := assessment.answers.countP (fun a => a.answer = "No"),
    level_compliance := level_compliance,
    process_area_compliance := pac,
    gaps := gaps,
    evidence_coverage := cov,
    high_priority_gaps := gaps.filter (fun g => g.importance = "High"),
    medium_priority_gaps := gaps.filter (fun g => g.importance = "Medium"),
    low_priority_gaps := gaps.filter (fun g => g.importance = "Low") }

/-! ### Concrete inputs used by the claim theorems and witnesses -/

/-- Catalog-entry builder for concrete test inputs. -/
def mkQ (i : String) (lv : Int) (pa : String) (imp : String)
    (sg sp gg : Option String) : TMMiQuestion :=
  { id := i, level := lv, process_area := pa, question := i,
    importance := imp, recommended_activity := i,
    reference_url := "url", specific_goal := sg, specific_practice := sp,
    generic_goal := gg }

/-- C1 input: one specific goal `G` with practice `A` backed by one question
(answered `Yes`) and practice `B` backed by two questions (unanswered). -/
def c1qs : List TMMiQuestion :=
  [mkQ "Q1" 2 "PA" "High" (some "G") (some "A") none,
   mkQ "Q2" 2 "PA" "High" (some "G") (some "B") none,
   mkQ "Q3" 2 "PA" "High" (some "G") (some "B") none]

/-- C1 input: the single answer. -/
def c1as : List AssessmentAnswer := [{ question_id := "Q1", answer := "Yes" }]

/-- C2 input: a one-question catalog with no answers. -/
def c2qs : List TMMiQuestion :=
  [mkQ "Q1" 2 "PA" "High" (some "G") (some "A") none]

/-- C3 input: two level-2 questions tagged with a generic goal. -/
def c3qs : List TMMiQuestion :=
  [mkQ "G1" 2 "PA" "High" none none (some "GG2.1"),
   mkQ "G2" 2 "PA" "High" none none (some "GG2.1")]

/-- C3 input: only the first tagged question is answered (`Partial`). -/
def c3as : List AssessmentAnswer :=
  [{ question_id := "G1", answer := "Partial" }]

/-- C9 input: a compliance record at 85% for level 3 only. -/
def c9stats : LevelStats :=
  { compliance_percentage := 85, total_questions := 1,
    answered_questions := 1, yes_count := 1, part_count := 0, no_count := 0,
    total_score := 1, max_score := 1 }

/-- C10 input: a one-question catalog. -/
def c10qs : List TMMiQuestion := [mkQ "Q1" 2 "PA" "High" none none none]

/-- C10 input: an assessment answering the catalog question and one unknown
question id `QX`. -/
def c10assessment : Assessment :=
  { answers := [{ question_id := "Q1", answer := "Yes" },
                { question_id := "QX", answer := "Yes" }] }

/-- C4 witness input: two level-2 process areas, `A` (one practice, five
questions: 2 Yes + 3 No = 40%) and `B` (one practice, five questions:
4 Yes + 1 Partial = 90%). -/
def c4qs : List TMMiQuestion :=
  [mkQ "A1" 2 "A" "High" (some "SGA") (some "SPA") none,
   mkQ "A2" 2 "A" "High" (some "SGA") (some "SPA") none,
   mkQ "A3" 2 "A" "High" (some "SGA") (some "SPA") none,
   mkQ "A4" 2 "A" "High" (some "SGA") (some "SPA") none,
   mkQ "A5" 2 "A" "High" (some "SGA") (some "SPA") none,
   mkQ "B1" 2 "B" "High" (some "SGB") (some "SPB") none,
   mkQ "B2" 2 "B" "High" (some "SGB") (some "SPB") none,
   mkQ "B3" 2 "B" "High" (some "SGB") (some "SPB") none,
   mkQ "B4" 2 "B" "High" (some "SGB") (some "SPB") none,
   mkQ "B5" 2 "B" "High" (some "SGB") (some "SPB") none]

/-- C4 witness input: the answers giving areas `A` 40% and `B` 90%. -/
def c4as : List AssessmentAnswer :=
  [{ question_id := "A1", answer := "Yes" },
   { question_id := "A2", answer := "Yes" },
   { question_id := "A3", answer := "No" },
   { question_id := "A4", answer := "No" },
   { question_id := "A5", answer := "No" },
   { question_id := "B1", answer := "Yes" },
   { question_id := "B2", answer := "Yes" },
   { question_id := "B3", answer := "Yes" },
   { question_id := "B4", answer := "Yes" },
   { question_id := "B5", answer := "Partial" }]


/-! ### Claim theorems -/

/-- C1 (code bug): `calculate_specific_goal_attainment` does not deduplicate
the goal's practices, so a goal whose practice `A` is fully met (one backing
question) and practice `B` unanswered (two backing questions) scores
`(100 + 0 + 0)/3 = 100/3`, not the unweighted practice mean `(100 + 0)/2 =
50` that the spec's roll-up law requires; the per-practice attainments
themselves are 100% and 0%. -/
theorem C1_sg_rollup_is_question_weighted :
    (lookupD (calculate_specific_goal_attainment c1qs c1as) "G").map
      (·.attainment_percentage) = some (100 / 3) ∧
    (lookupD (calculate_specific_practice_attainment c1qs c1as) "A").map
      (·.attainment_percentage) = some 100 ∧
    (lookupD (calculate_specific_practice_attainment c1qs c1as) "B").map
      (·.attainment_percentage) = some 0 ∧
    ((100 : ℚ) + 0) / 2 = 50 ∧ (100 / 3 : ℚ) ≠ 50 := by
  refine ⟨by decide, by decide, by decide, by norm_num, by decide⟩

/-- C2 (code bug): on a catalog with one unanswered question the enhanced
gap extractor emits NO gap record at all (its loop skips questions absent
from the answer lookup), while the basic extractor emits the
`"Not Answered"` record the contract describes. -/
theorem C2_enhanced_gaps_skip_unanswered :
    extract_gap_analysis_enhanced c2qs [] = [] ∧
    (get_gap_analysis c2qs []).map (·.current_answer) = ["Not Answered"] := by
  exact ⟨by decide, by decide⟩

/-- C3 (counterexample): with two level-2 generic-goal-tagged questions of
which only one is answered (`Partial`), the code reports 50% (dividing by
the one ANSWERED tagged question), not the 25% = 100 × (1/2) / 2 the claim's
denominator (all tagged catalog questions) would give. -/
theorem C3_counterexample_unanswered_excluded :
    (lookupD (calculate_generic_goal_compliance c3qs c3as) "GG2 - Managed"
      ).map (·.attainment_percentage) = some 50 ∧
    (50 : ℚ) ≠ 100 * (1 / 2) / 2 := by
  exact ⟨by decide, by norm_num⟩

/-- C9: a compliance map holding only level 3 at 85% (≥ the 80% threshold)
makes `determine_current_tmmi_level` return level 3 — the absent level 2 is
treated as satisfied by the lower-level check. -/
theorem C9_absent_lower_levels_pass :
    (determine_current_tmmi_level [((3 : Int), c9stats)] 80).1 = 3 := by
  decide

/-- C10: `generate_assessment_summary` sums the scores of ALL answers in the
assessment — including answers whose question id is not in the catalog —
and divides by the catalog size, so an assessment answering the one-question
catalog plus an unknown id `QX` (not a catalog id) reports 200%, exceeding
100%. -/
theorem C10_overall_percentage_counts_orphans :
    (∀ (qs : List TMMiQuestion) (a : Assessment),
      (generate_assessment_summary qs a).overall_percentage =
        if 0 < qs.length then
          100 * ((a.answers.map (fun x => calculate_answer_score x.answer)
            ).sum) / (qs.length : ℚ)
        else 0) ∧
    (generate_assessment_summary c10qs c10assessment).overall_percentage =
      200 ∧
    ("QX" ∉ c10qs.map TMMiQuestion.id) ∧ (100 : ℚ) < 200 := by
  refine ⟨?_, by decide, by decide, by norm_num⟩
  intro qs a
  show (if qs.length > 0 then _ / (qs.length : ℚ) * 100 else 0) = _
  by_cases h : 0 < qs.length
  · rw [if_pos h, if_pos h]; ring
  · rw [if_neg h, if_neg h]

/-- `has_evidence` agrees with the spec's phrasing: the evidence field is
present and non-empty after trimming whitespace (a string whose trim is
non-empty is itself non-empty). -/
theorem has_evidence_eq (a : AssessmentAnswer) :
    has_evidence a = (match a.evidence_url with
      | some s => decide (pyStrip s ≠ "")
      | none => false) := by
  rcases a with ⟨qid, ans, ev, c⟩
  cases ev with
  | none => rfl
  | some s =>
    show (decide (s ≠ "") && decide (pyStrip s ≠ "")) = decide (pyStrip s ≠ "")
    by_cases h : s = ""
    · subst h; decide
    · simp [h]

/-- C8: evidence coverage returns the zero record on the empty answer list,
and in general counts exactly the answers whose evidence field is present
and non-empty after trimming whitespace, with `percentage = 100 ×
with_evidence / total` (the `0/0` convention of `ℚ` covers the empty
case). -/
theorem C8_evidence_coverage_contract :
    calculate_evidence_coverage [] =
      ⟨0, 0, 0⟩ ∧
    ∀ as : List AssessmentAnswer,
      (calculate_evidence_coverage as).total_answers = as.length ∧
      (calculate_evidence_coverage as).with_evidence =
        as.countP (fun a => match a.evidence_url with
          | some s => decide (pyStrip s ≠ "")
          | none => false) ∧
      (calculate_evidence_coverage as).percentage =
        100 * ((calculate_evidence_coverage as).with_evidence : ℚ) /
          (as.length : ℚ) := by
  refine ⟨rfl, ?_⟩
  intro as
  have hc : as.countP has_evidence =
      as.countP (fun a => match a.evidence_url with
        | some s => decide (pyStrip s ≠ "")
        | none => false) :=
    List.countP_congr (fun a _ => by rw [has_evidence_eq a])
  unfold calculate_evidence_coverage
  by_cases h : as.length = 0
  · rw [List.length_eq_zero] at h
    subst h
    refine ⟨rfl, rfl, by norm_num⟩
  · rw [if_neg (by simpa using h)]
    refine ⟨rfl, hc.symm ▸ rfl, ?_⟩
    show (as.countP has_evidence : ℚ) / (as.length : ℚ) * 100 =
      100 * (as.countP has_evidence : ℚ) / (as.length : ℚ)
    ring

/-- Score contributed by one catalog question under an answer lookup:
its answer's score if answered, else 0. -/
def scoreOf (lookup : String → Option AssessmentAnswer)
    (q : TMMiQuestion) : ℚ :=
  match lookup q.id with
  | some a => calculate_answer_score a.answer
  | none => 0

/-- One compliance-loop step adds exactly the question's score to the
running total. -/
theorem tallyStep_total_score (lookup : String → Option AssessmentAnswer)
    (t : Tally) (q : TMMiQuestion) :
    (tallyStep lookup t q).total_score = t.total_score + scoreOf lookup q := by
  unfold tallyStep scoreOf
  cases lookup q.id with
  | none => simp
  | some a =>
    dsimp only
    split_ifs <;> rfl

/-- Folding the compliance loop from any accumulator adds the bucket's
total score. -/
theorem tallyBucket_total_aux (lookup : String → Option AssessmentAnswer)
    (b : List TMMiQuestion) :
    ∀ t : Tally, (b.foldl (tallyStep lookup) t).total_score =
      t.total_score + (b.map (scoreOf lookup)).sum := by
  induction b with
  | nil => intro t; simp
  | cons q b ih =>
    intro t
    rw [List.foldl_cons, ih, tallyStep_total_score, List.map_cons,
      List.sum_cons]
    ring

/-- The compliance loop's total score is the sum of the bucket's
per-question scores. -/
theorem tallyBucket_total (lookup : String → Option AssessmentAnswer)
    (b : List TMMiQuestion) :
    (tallyBucket lookup b).total_score = (b.map (scoreOf lookup)).sum := by
  rw [tallyBucket, tallyBucket_total_aux]
  show (0 : ℚ) + _ = _
  ring

/-- A bucket's compliance percentage is `100 × (sum of scores) / (bucket
size)` — also in the degenerate empty-bucket case, where both sides are 0
under `ℚ`'s `x / 0 = 0` convention. -/
theorem bucketStats_compliance (lookup : String → Option AssessmentAnswer)
    (b : List TMMiQuestion) :
    (bucketStats lookup b).compliance_percentage =
      100 * (b.map (scoreOf lookup)).sum / (b.length : ℚ) := by
  show (if b.length > 0 then
      (tallyBucket lookup b).total_score / (b.length : ℚ) * 100 else 0) = _
  rw [tallyBucket_total]
  by_cases h : 0 < b.length
  · rw [if_pos h]; ring
  · rw [if_neg h]
    have hb : b = [] := List.length_eq_zero.mp (by omega)
    subst hb
    norm_num

/-- C6: in both leaf-level aggregators every reported group percentage is
`100 × (sum of the group's answered questions' scores) / (number of catalog
questions in the group)` — unanswered questions contribute 0 to the sum but
are counted in the denominator, since the group is the full catalog
bucket. -/
theorem C6_leaf_aggregation_soundness (qs : List TMMiQuestion)
    (as : List AssessmentAnswer) :
    (∀ p ∈ calculate_level_compliance qs as,
      p.2.compliance_percentage =
        100 * ((qs.filter (fun q => q.level = p.1)).map
          (scoreOf (answer_lookup as))).sum /
          (((qs.filter (fun q => q.level = p.1)).length : ℚ))) ∧
    (∀ p ∈ calculate_process_area_compliance qs as,
      p.2.compliance_percentage =
        100 * ((qs.filter (fun q => q.process_area = p.1)).map
          (scoreOf (answer_lookup as))).sum /
          (((qs.filter (fun q => q.process_area = p.1)).length : ℚ))) := by
  constructor
  · intro p hp
    rw [calculate_level_compliance] at hp
    obtain ⟨l, _, rfl⟩ := List.mem_map.mp hp
    exact bucketStats_compliance _ _
  · intro p hp
    rw [calculate_process_area_compliance] at hp
    obtain ⟨pa, _, rfl⟩ := List.mem_map.mp hp
    exact bucketStats_compliance _ _

/-- The level-2 compliance record the C6 witness instantiates:
3 catalog questions, one answered `Yes`, percentage 100/3. -/
def c6stats : LevelStats :=
  { compliance_percentage := 100 / 3, total_questions := 3,
    answered_questions := 1, yes_count := 1, part_count := 0, no_count := 0,
    total_score := 1, max_score := 3 }

/-- C6 witness: the level-2 group of the C1 catalog (3 questions, one
answered `Yes`) satisfies the aggregation-soundness equation, as does the
process-area group `PA`. -/
theorem C6_leaf_aggregation_soundness_witness :
    (((2 : Int), c6stats) ∈ calculate_level_compliance c1qs c1as ∧
      c6stats.compliance_percentage =
        100 * ((c1qs.filter (fun q => q.level = (2 : Int))).map
          (scoreOf (answer_lookup c1as))).sum /
          (((c1qs.filter (fun q => q.level = (2 : Int))).length : ℚ))) ∧
    (("PA", c6stats) ∈ calculate_process_area_compliance c1qs c1as ∧
      c6stats.compliance_percentage =
        100 * ((c1qs.filter (fun q => q.process_area = "PA")).map
          (scoreOf (answer_lookup c1as))).sum /
          (((c1qs.filter (fun q => q.process_area = "PA")).length : ℚ))) :=
  ⟨⟨by decide,
    (C6_leaf_aggregation_soundness c1qs c1as).1 ((2 : Int), c6stats)
      (by decide)⟩,
   ⟨by decide,
    (C6_leaf_aggregation_soundness c1qs c1as).2 ("PA", c6stats)
      (by decide)⟩⟩

/-- Filtering a list by a predicate implied by the search predicate does not
change the first match. -/
theorem find?_filter_of_imp (l : List α) (p f : α → Bool)
    (h : ∀ a, p a = true → f a = true) :
    (l.filter f).find? p = l.find? p := by
  induction l with
  | nil => rfl
  | cons a l ih =>
    by_cases hf : f a = true
    · rw [List.filter_cons_of_pos hf]
      by_cases hp : p a = true
      · rw [List.find?_cons_of_pos _ hp, List.find?_cons_of_pos _ hp]
      · rw [List.find?_cons_of_neg _ hp, List.find?_cons_of_neg _ hp, ih]
    · have hp : ¬ p a = true := fun hpa => hf (h a hpa)
      rw [List.filter_cons_of_neg hf, ih, List.find?_cons_of_neg _ hp]

/-- Dropping the answers whose question id is not among the given ids does
not change the lookup at any of those ids. -/
theorem answer_lookup_filter (ids : List String)
    (as : List AssessmentAnswer) (qid : String) (hq : qid ∈ ids) :
    answer_lookup (as.filter (fun a => decide (a.question_id ∈ ids))) qid =
      answer_lookup as qid := by
  unfold answer_lookup
  rw [← List.filter_reverse]
  refine find?_filter_of_imp _ _ _ (fun a ha => ?_)
  have h1 : a.question_id = qid := of_decide_eq_true ha
  exact decide_eq_true (h1 ▸ hq)

/-- The compliance loop only reads the lookup at the bucket's question ids. -/
theorem tallyBucket_congr (l1 l2 : String → Option AssessmentAnswer)
    (b : List TMMiQuestion) (h : ∀ q ∈ b, l1 q.id = l2 q.id) :
    tallyBucket l1 b = tallyBucket l2 b := by
  unfold tallyBucket
  generalize (⟨0, 0, 0, 0, 0⟩ : Tally) = acc
  induction b generalizing acc with
  | nil => rfl
  | cons q b ih =>
    rw [List.foldl_cons, List.foldl_cons]
    have hq : tallyStep l1 acc q = tallyStep l2 acc q := by
      unfold tallyStep
      rw [h q (List.mem_cons_self q b)]
    rw [hq]
    exact ih (fun q' hq' => h q' (List.mem_cons_of_mem q hq')) _

/-- So does the per-group record builder. -/
theorem bucketStats_congr (l1 l2 : String → Option AssessmentAnswer)
    (b : List TMMiQuestion) (h : ∀ q ∈ b, l1 q.id = l2 q.id) :
    bucketStats l1 b = bucketStats l2 b := by
  unfold bucketStats
  rw [tallyBucket_congr l1 l2 b h]

/-- The practice-level loop only reads the lookup at the bucket's question
ids. -/
theorem spTally_congr (l1 l2 : String → Option AssessmentAnswer)
    (b : List TMMiQuestion) (h : ∀ q ∈ b, l1 q.id = l2 q.id) :
    spTally l1 b = spTally l2 b := by
  unfold spTally
  generalize ((0, 0) : ℚ × Nat) = acc
  induction b generalizing acc with
  | nil => rfl
  | cons q b ih =>
    rw [List.foldl_cons, List.foldl_cons, h q (List.mem_cons_self q b)]
    exact ih (fun q' hq' => h q' (List.mem_cons_of_mem q hq')) _

/-- C7: removing every answer whose question id does not occur in the
catalog changes none of the three aggregators — orphan answers are invisible
to aggregation, which only ever consults the lookup at catalog question
ids. -/
theorem C7_orphan_answer_insensitivity (qs : List TMMiQuestion)
    (as : List AssessmentAnswer) :
    calculate_level_compliance qs
        (as.filter (fun a => decide (a.question_id ∈ qs.map TMMiQuestion.id)))
      = calculate_level_compliance qs as ∧
    calculate_process_area_compliance qs
        (as.filter (fun a => decide (a.question_id ∈ qs.map TMMiQuestion.id)))
      = calculate_process_area_compliance qs as ∧
    calculate_specific_practice_attainment qs
        (as.filter (fun a => decide (a.question_id ∈ qs.map TMMiQuestion.id)))
      = calculate_specific_practice_attainment qs as := by
  have hlk : ∀ q ∈ qs,
      answer_lookup
        (as.filter (fun a => decide (a.question_id ∈ qs.map TMMiQuestion.id)))
        q.id = answer_lookup as q.id :=
    fun q hq =>
      answer_lookup_filter _ as q.id (List.mem_map_of_mem TMMiQuestion.id hq)
  refine ⟨?_, ?_, ?_⟩
  · unfold calculate_level_compliance
    refine List.map_congr_left (fun l _ => ?_)
    rw [bucketStats_congr _ _ _ (fun q hq =>
      hlk q (List.mem_filter.mp hq).1)]
  · unfold calculate_process_area_compliance
    refine List.map_congr_left (fun pa _ => ?_)
    rw [bucketStats_congr _ _ _ (fun q hq =>
      hlk q (List.mem_filter.mp hq).1)]
  · unfold calculate_specific_practice_attainment
    refine List.map_congr_left (fun sp _ => ?_)
    have hc := spTally_congr
      (answer_lookup
        (as.filter (fun a => decide (a.question_id ∈ qs.map TMMiQuestion.id))))
      (answer_lookup as)
      (qs.filter (fun q => decide (truthyStr q.specific_practice = some sp)))
      (fun q hq => hlk q (List.mem_filter.mp hq).1)
    simp only [hc]

/-- The generic-goal loop accumulates, over the ANSWERED questions of the
bucket only: the sum of their scores, their count, and their evidence
count. -/
theorem ggTally_eq (lookup : String → Option AssessmentAnswer)
    (b : List TMMiQuestion) :
    ggTally lookup b =
      (((b.filterMap (fun q => lookup q.id)).map
          (fun a => calculate_answer_score a.answer)).sum,
       (b.filterMap (fun q => lookup q.id)).length,
       (b.filterMap (fun q => lookup q.id)).countP has_evidence) := by
  have aux : ∀ acc : ℚ × Nat × Nat,
      b.foldl (fun acc q =>
        match lookup q.id with
        | none => acc
        | some a =>
          (acc.1 + calculate_answer_score a.answer, acc.2.1 + 1,
           if has_evidence a then acc.2.2 + 1 else acc.2.2)) acc =
      (acc.1 + ((b.filterMap (fun q => lookup q.id)).map
          (fun a => calculate_answer_score a.answer)).sum,
       acc.2.1 + (b.filterMap (fun q => lookup q.id)).length,
       acc.2.2 + (b.filterMap (fun q => lookup q.id)).countP has_evidence) := by
    induction b with
    | nil => intro acc; simp
    | cons q b ih =>
      intro acc
      rw [List.foldl_cons]
      cases hq : lookup q.id with
      | none => rw [ih]; simp [List.filterMap_cons, hq]
      | some a =>
        rw [ih]
        simp only [List.filterMap_cons, hq, List.map_cons, List.sum_cons,
          List.length_cons, List.countP_cons]
        refine Prod.ext ?_ (Prod.ext ?_ ?_)
        · show acc.1 + _ + _ = acc.1 + (_ + _)
          ring
        · show acc.2.1 + 1 + _ = acc.2.1 + (_ + 1)
          omega
        · by_cases he : has_evidence a = true <;> simp [he] <;> omega
  rw [ggTally, aux]
  simp

/-- C3 (amended): every emitted generic-goal record divides by the count of
ANSWERED tagged questions (which is positive), and its `status` is `"Met"`
precisely when the attainment is at least 85. -/
theorem C3_amended_gg_denominator (qs : List TMMiQuestion)
    (as : List AssessmentAnswer) (k : String) (s : GGStats)
    (hmem : (k, s) ∈ calculate_generic_goal_compliance qs as) :
    s.attainment_percentage =
      100 * ((((qs.filter (fun q => q.level = s.level && truthyB
          q.generic_goal)).filterMap (fun q => answer_lookup as q.id)).map
            (fun a => calculate_answer_score a.answer)).sum) /
        ((((qs.filter (fun q => q.level = s.level && truthyB q.generic_goal)
          ).filterMap (fun q => answer_lookup as q.id)).length : ℚ)) ∧
    0 < ((qs.filter (fun q => q.level = s.level && truthyB q.generic_goal)
      ).filterMap (fun q => answer_lookup as q.id)).length ∧
    (s.status = "Met" ↔ 85 ≤ s.attainment_percentage) := by
  unfold calculate_generic_goal_compliance at hmem
  obtain ⟨level, _, hf⟩ := List.mem_filterMap.mp hmem
  by_cases hempty :
      (qs.filter (fun q => q.level = level && truthyB q.generic_goal)
        ).isEmpty = true
  · rw [if_pos hempty] at hf
    exact absurd hf (by simp)
  · rw [if_neg hempty] at hf
    rw [ggTally_eq] at hf
    by_cases hcnt : 0 <
        ((qs.filter (fun q => q.level = level && truthyB q.generic_goal)
          ).filterMap (fun q => answer_lookup as q.id)).length
    · rw [if_pos hcnt] at hf
      obtain ⟨hk, hs⟩ := Prod.mk.injEq .. ▸ Option.some.injEq .. ▸ hf
      subst hs
      refine ⟨?_, hcnt, ?_⟩
      · show (_ : ℚ) / _ * 100 = _
        ring
      · show (if (85 : ℚ) ≤ _ then "Met" else "Not Met") = "Met" ↔ _
        split_ifs with hge
        · simpa using hge
        · simpa using hge
    · rw [if_neg hcnt] at hf
      exact absurd hf (by simp)

/-- The generic-goal record the C3 witness instantiates: level 2, one
answered tagged question (`Partial`), 50%, below the 85% bar. -/
def c3gg : GGStats :=
  { level := 2, attainment_percentage := 50, band := "L",
    question_count := 1, evidence_count := 0, evidence_coverage := 0,
    status := "Not Met" }

/-- C3 amended-claim witness: the `GG2 - Managed` record of the C3 input
satisfies the answered-questions-denominator equation and the `Met`
threshold condition. -/
theorem C3_amended_gg_denominator_witness :
    ("GG2 - Managed", c3gg) ∈ calculate_generic_goal_compliance c3qs c3as ∧
    (c3gg.status = "Met" ↔ 85 ≤ c3gg.attainment_percentage) :=
  ⟨by decide,
   (C3_amended_gg_denominator c3qs c3as "GG2 - Managed" c3gg (by decide)).2.2⟩

/-- The per-level attainment function described by the claim: levels 2-5
mapped to the four given percentages. -/
def chain_att (a2 a3 a4 a5 : ℚ) (l : Int) : ℚ :=
  if l = 2 then a2 else if l = 3 then a3 else if l = 4 then a4 else a5

/-- The claim's "highest level whose whole prerequisite chain meets the
threshold, else 1", as a nested conditional. -/
def chain_spec (t a2 a3 a4 a5 : ℚ) : Int :=
  if t ≤ a2 then
    if t ≤ a3 then
      if t ≤ a4 then
        if t ≤ a5 then 5 else 4
      else 3
    else 2
  else 1

/-- With all four levels present in the map, `determine_current_tmmi_level`
computes exactly the nested-conditional chain value. -/
theorem determine_eval (m : List (Int × LevelStats)) (t : ℚ)
    (s2 s3 s4 s5 : LevelStats)
    (h2 : lookupD m 2 = some s2) (h3 : lookupD m 3 = some s3)
    (h4 : lookupD m 4 = some s4) (h5 : lookupD m 5 = some s5) :
    (determine_current_tmmi_level m t).1 =
      chain_spec t s2.compliance_percentage s3.compliance_percentage
        s4.compliance_percentage s5.compliance_percentage := by
  have l2 : lowers_compliant m t 2 = true := rfl
  have e3 : (List.range ((3 : Int) - 2).toNat).map (fun i => (2 : Int) + i)
      = [2] := by decide
  have e4 : (List.range ((4 : Int) - 2).toNat).map (fun i => (2 : Int) + i)
      = [2, 3] := by decide
  have e5 : (List.range ((5 : Int) - 2).toNat).map (fun i => (2 : Int) + i)
      = [2, 3, 4] := by decide
  have l3 : lowers_compliant m t 3 = decide (t ≤ s2.compliance_percentage) := by
    unfold lowers_compliant
    rw [e3]
    simp [h2]
  have l4 : lowers_compliant m t 4 =
      (decide (t ≤ s2.compliance_percentage) &&
       decide (t ≤ s3.compliance_percentage)) := by
    unfold lowers_compliant
    rw [e4]
    simp [h2, h3]
  have l5 : lowers_compliant m t 5 =
      (decide (t ≤ s2.compliance_percentage) &&
       decide (t ≤ s3.compliance_percentage) &&
       decide (t ≤ s4.compliance_percentage)) := by
    unfold lowers_compliant
    rw [e5]
    simp [h2, h3, h4, Bool.and_assoc]
  by_cases p2 : t ≤ s2.compliance_percentage <;>
  by_cases p3 : t ≤ s3.compliance_percentage <;>
  by_cases p4 : t ≤ s4.compliance_percentage <;>
  by_cases p5 : t ≤ s5.compliance_percentage <;>
  simp [determine_current_tmmi_level, det_step, chain_spec,
    h2, h3, h4, h5, l2, l3, l4, l5, p2, p3, p4, p5]

/-- Maximality: any level 2-5 whose whole prerequisite chain meets the
threshold is at most the chain value. -/
theorem chain_spec_max (t a2 a3 a4 a5 : ℚ) :
    ∀ L : Int, 2 ≤ L → L ≤ 5 →
      (∀ l : Int, 2 ≤ l → l ≤ L → t ≤ chain_att a2 a3 a4 a5 l) →
      L ≤ chain_spec t a2 a3 a4 a5 := by
  intro L hL1 hL2 hch
  unfold chain_spec
  split_ifs with c2 c3 c4 c5
  · omega
  · by_contra hcon
    push_neg at hcon
    have h5 : t ≤ chain_att a2 a3 a4 a5 5 := hch 5 (by omega) (by omega)
    simp [chain_att] at h5
    exact c5 h5
  · by_contra hcon
    push_neg at hcon
    have h4 : t ≤ chain_att a2 a3 a4 a5 4 := hch 4 (by omega) (by omega)
    simp [chain_att] at h4
    exact c4 h4
  · by_contra hcon
    push_neg at hcon
    have h3 : t ≤ chain_att a2 a3 a4 a5 3 := hch 3 (by omega) (by omega)
    simp [chain_att] at h3
    exact c3 h3
  · by_contra hcon
    push_neg at hcon
    have h2 : t ≤ chain_att a2 a3 a4 a5 2 := hch 2 (by omega) (by omega)
    simp [chain_att] at h2
    exact c2 h2

/-- Soundness: the chain value is 1, or lies in 2-5 and its whole
prerequisite chain meets the threshold. -/
theorem chain_spec_sound (t a2 a3 a4 a5 : ℚ) :
    chain_spec t a2 a3 a4 a5 = 1 ∨
      (2 ≤ chain_spec t a2 a3 a4 a5 ∧ chain_spec t a2 a3 a4 a5 ≤ 5 ∧
       ∀ l : Int, 2 ≤ l → l ≤ chain_spec t a2 a3 a4 a5 →
         t ≤ chain_att a2 a3 a4 a5 l) := by
  unfold chain_spec
  split_ifs with c2 c3 c4 c5
  · refine Or.inr ⟨by omega, by omega, fun l h1 h2 => ?_⟩
    interval_cases l <;> simp [chain_att] <;> assumption
  · refine Or.inr ⟨by omega, by omega, fun l h1 h2 => ?_⟩
    interval_cases l <;> simp [chain_att] <;> assumption
  · refine Or.inr ⟨by omega, by omega, fun l h1 h2 => ?_⟩
    interval_cases l <;> simp [chain_att] <;> assumption
  · refine Or.inr ⟨by omega, by omega, fun l h1 h2 => ?_⟩
    interval_cases l <;> simp [chain_att] <;> assumption
  · exact Or.inl rfl

/-- C5: on an attainment map holding entries for all of levels 2-5,
`determine_current_tmmi_level` returns the highest level L in 2-5 such that
every level from 2 up to L meets the threshold (any such L is a lower bound
of the result, and the result is 1 or such an L itself); in particular a
level-2 attainment below the threshold forces level 1. -/
theorem C5_level_chain (m : List (Int × LevelStats)) (t : ℚ)
    (s2 s3 s4 s5 : LevelStats)
    (h2 : lookupD m 2 = some s2) (h3 : lookupD m 3 = some s3)
    (h4 : lookupD m 4 = some s4) (h5 : lookupD m 5 = some s5) :
    (∀ L : Int, 2 ≤ L → L ≤ 5 →
      (∀ l : Int, 2 ≤ l → l ≤ L →
        t ≤ chain_att s2.compliance_percentage s3.compliance_percentage
          s4.compliance_percentage s5.compliance_percentage l) →
      L ≤ (determine_current_tmmi_level m t).1) ∧
    ((determine_current_tmmi_level m t).1 = 1 ∨
      (2 ≤ (determine_current_tmmi_level m t).1 ∧
       (determine_current_tmmi_level m t).1 ≤ 5 ∧
       ∀ l : Int, 2 ≤ l → l ≤ (determine_current_tmmi_level m t).1 →
         t ≤ chain_att s2.compliance_percentage s3.compliance_percentage
           s4.compliance_percentage s5.compliance_percentage l)) ∧
    (s2.compliance_percentage < t → (determine_current_tmmi_level m t).1 = 1)
    := by
  rw [determine_eval m t s2 s3 s4 s5 h2 h3 h4 h5]
  refine ⟨chain_spec_max t _ _ _ _, chain_spec_sound t _ _ _ _, fun hlt => ?_⟩
  unfold chain_spec
  rw [if_neg (not_le.mpr hlt)]

/-- A one-question compliance record with the given percentage, for the C5
witness map. -/
def c5stat (p : ℚ) : LevelStats :=
  { compliance_percentage := p, total_questions := 1,
    answered_questions := 1, yes_count := 1, part_count := 0, no_count := 0,
    total_score := 1, max_score := 1 }

/-- The C5 witness map: levels 2-5 at 90/85/70/95 percent. -/
def c5m : List (Int × LevelStats) :=
  [(2, c5stat 90), (3, c5stat 85), (4, c5stat 70), (5, c5stat 95)]

/-- C5 witness: on the 90/85/70/95 map with threshold 80 the returned level
satisfies the soundness clause (it is 3: levels 2 and 3 meet the threshold,
level 4 does not). -/
theorem C5_level_chain_witness :
    lookupD c5m 2 = some (c5stat 90) ∧
    (determine_current_tmmi_level c5m 80).1 = 3 ∧
    ((determine_current_tmmi_level c5m 80).1 = 1 ∨
      (2 ≤ (determine_current_tmmi_level c5m 80).1 ∧
       (determine_current_tmmi_level c5m 80).1 ≤ 5 ∧
       ∀ l : Int, 2 ≤ l → l ≤ (determine_current_tmmi_level c5m 80).1 →
         (80 : ℚ) ≤ chain_att (c5stat 90).compliance_percentage
           (c5stat 85).compliance_percentage
           (c5stat 70).compliance_percentage
           (c5stat 95).compliance_percentage l)) :=
  ⟨by decide, by decide,
   (C5_level_chain c5m 80 (c5stat 90) (c5stat 85) (c5stat 70) (c5stat 95)
     (by decide) (by decide) (by decide) (by decide)).2.1⟩

/-- Folding `min` never exceeds the initial value. -/
theorem foldl_min_le_init (x : ℚ) (xs : List ℚ) : xs.foldl min x ≤ x := by
  induction xs generalizing x with
  | nil => simp
  | cons y ys ih =>
    rw [List.foldl_cons]
    exact le_trans (ih (min x y)) (min_le_left x y)

/-- Folding `min` yields one of the values folded over. -/
theorem foldl_min_mem (xs : List ℚ) : ∀ x : ℚ, xs.foldl min x ∈ x :: xs := by
  induction xs with
  | nil => intro x; simp
  | cons y ys ih =>
    intro x
    rw [List.foldl_cons]
    rcases List.mem_cons.mp (ih (min x y)) with h' | h'
    · rcases min_choice x y with hm | hm
      · exact List.mem_cons.mpr (Or.inl (h'.trans hm))
      · exact List.mem_cons.mpr (Or.inr
          (List.mem_cons.mpr (Or.inl (h'.trans hm))))
    · exact List.mem_cons.mpr (Or.inr (List.mem_cons.mpr (Or.inr h')))

/-- Folding `min` is a lower bound of all values folded over. -/
theorem foldl_min_le (xs : List ℚ) :
    ∀ x : ℚ, ∀ y ∈ x :: xs, xs.foldl min x ≤ y := by
  induction xs with
  | nil =>
    intro x y hy
    rcases List.mem_cons.mp hy with heq | h'
    · rw [heq]
      simp
    · simp at h'
  | cons z zs ih =>
    intro x y hy
    rw [List.foldl_cons]
    rcases List.mem_cons.mp hy with heq | hy'
    · rw [heq]
      exact le_trans (ih (min x z) _ (List.mem_cons_self _ _))
        (min_le_left x z)
    · rcases List.mem_cons.mp hy' with heq | hy''
      · rw [heq]
        exact le_trans (ih (min x z) _ (List.mem_cons_self _ _))
          (min_le_right x z)
      · exact ih (min x z) y (List.mem_cons_of_mem _ hy'')

/-- Python `min` returns a member of the list. -/
theorem listMin_mem (l : List ℚ) (μ : ℚ) (h : listMin l = some μ) : μ ∈ l := by
  cases l with
  | nil => simp [listMin] at h
  | cons x xs =>
    rw [listMin, Option.some.injEq] at h
    subst h
    exact foldl_min_mem xs x

/-- Python `min` is a lower bound of the list. -/
theorem listMin_le (l : List ℚ) (μ : ℚ) (h : listMin l = some μ) :
    ∀ y ∈ l, μ ≤ y := by
  cases l with
  | nil => simp [listMin] at h
  | cons x xs =>
    rw [listMin, Option.some.injEq] at h
    subst h
    exact foldl_min_le xs x

/-- A `find?` hit splits the list at the FIRST element satisfying the
predicate: everything before it fails the predicate. -/
theorem find?_first (l : List α) (p : α → Bool) (x : α)
    (h : l.find? p = some x) :
    ∃ pre post, l = pre ++ x :: post ∧ ∀ y ∈ pre, ¬ p y = true := by
  induction l with
  | nil => simp at h
  | cons a l ih =>
    by_cases hp : p a = true
    · rw [List.find?_cons_of_pos _ hp, Option.some.injEq] at h
      subst h
      exact ⟨[], l, rfl, by simp⟩
    · rw [List.find?_cons_of_neg _ hp] at h
      obtain ⟨pre, post, heq, hpre⟩ := ih h
      refine ⟨a :: pre, post, by rw [heq]; rfl, ?_⟩
      intro y hy
      rcases List.mem_cons.mp hy with rfl | hy'
      · exact hp
      · exact hpre y hy'

/-- C4: `target_level_readiness` is the unweighted mean of the target-level
process areas' attainments; whenever some target-level area sits below 50%
the gating status is `Not Eligible`, the gating reason names the first (in
iteration order) offending area with its percentage, and
`conservative_readiness` is the minimum target-area attainment plus 5;
when every target-level area is at 50% or above the status is `Eligible`,
no reason is reported, and `conservative_readiness` equals
`target_level_readiness`. -/
theorem C4_readiness_gating (qs : List TMMiQuestion)
    (as : List AssessmentAnswer) :
    ((calculate_next_level_readiness qs as).target_level_readiness =
      (((calculate_next_level_readiness qs as).target_process_areas.map
          (fun p => p.2.attainment_percentage)).sum) /
        (((calculate_next_level_readiness qs as).target_pa_count : ℚ))) ∧
    ((∃ p ∈ (calculate_next_level_readiness qs as).target_process_areas,
        p.2.attainment_percentage < 50) →
      (calculate_next_level_readiness qs as).gating_status = "Not Eligible" ∧
      (∃ p₀ pre post,
        (calculate_next_level_readiness qs as).gating_reason =
          some (p₀.1, p₀.2.attainment_percentage) ∧
        (calculate_next_level_readiness qs as).target_process_areas =
          pre ++ p₀ :: post ∧
        (∀ p ∈ pre, ¬ p.2.attainment_percentage < 50) ∧
        p₀.2.attainment_percentage < 50) ∧
      (∃ p ∈ (calculate_next_level_readiness qs as).target_process_areas,
        (calculate_next_level_readiness qs as).conservative_readiness =
          p.2.attainment_percentage + 5) ∧
      (∀ p ∈ (calculate_next_level_readiness qs as).target_process_areas,
        (calculate_next_level_readiness qs as).conservative_readiness ≤
          p.2.attainment_percentage + 5)) ∧
    ((∀ p ∈ (calculate_next_level_readiness qs as).target_process_areas,
        50 ≤ p.2.attainment_percentage) →
      (calculate_next_level_readiness qs as).gating_status = "Eligible" ∧
      (calculate_next_level_readiness qs as).gating_reason = none ∧
      (calculate_next_level_readiness qs as).conservative_readiness =
        (calculate_next_level_readiness qs as).target_level_readiness) := by
  unfold calculate_next_level_readiness
  dsimp only
  generalize (List.filter
      (fun p => decide (p.2.level =
        min ((determine_current_tmmi_level
          (calculate_level_compliance qs as) 80).1 + 1) 5))
      (calculate_process_area_attainment_enhanced qs as)) = tgt
  refine ⟨?_, ?_, ?_⟩
  · by_cases h : tgt.length > 0
    · rw [if_pos h]
    · rw [if_neg h]
      have : tgt = [] := List.length_eq_zero.mp (by omega)
      subst this
      simp
  · rintro ⟨p, hp, hlt⟩
    have hsome : (tgt.find?
        (fun p => decide (p.2.attainment_percentage < 50))).isSome :=
      List.find?_isSome.mpr ⟨p, hp, by simpa using hlt⟩
    obtain ⟨p₀, hfind⟩ := Option.isSome_iff_exists.mp hsome
    rw [hfind]
    have hp₀mem : p₀ ∈ tgt := List.mem_of_find?_eq_some hfind
    have hp₀lt : p₀.2.attainment_percentage < 50 := by
      have := List.find?_some hfind
      simpa using this
    have hne : tgt.map (fun p => p.2.attainment_percentage) ≠ [] := by
      intro hcon
      rw [List.map_eq_nil_iff] at hcon
      rw [hcon] at hp₀mem
      simp at hp₀mem
    obtain ⟨μ, hμ⟩ : ∃ μ, listMin
        (tgt.map (fun p => p.2.attainment_percentage)) = some μ := by
      cases hm : tgt.map (fun p => p.2.attainment_percentage) with
      | nil => exact absurd hm hne
      | cons x xs => exact ⟨xs.foldl min x, rfl⟩
    rw [hμ]
    refine ⟨rfl, ?_, ?_, ?_⟩
    · obtain ⟨pre, post, heq, hpre⟩ := find?_first _ _ _ hfind
      exact ⟨p₀, pre, post, rfl, heq, fun y hy => by
        simpa using hpre y hy, hp₀lt⟩
    · have := listMin_mem _ _ hμ
      obtain ⟨p₁, hp₁, hval⟩ := List.mem_map.mp this
      exact ⟨p₁, hp₁, by rw [Option.getD_some, hval]⟩
    · intro q hq
      have := listMin_le _ _ hμ _ (List.mem_map_of_mem
        (fun p => p.2.attainment_percentage) hq)
      rw [Option.getD_some]
      linarith
  · intro hall
    have hfind : tgt.find?
        (fun p => decide (p.2.attainment_percentage < 50)) = none :=
      List.find?_eq_none.mpr (fun x hx => by
        simpa using not_lt.mpr (hall x hx))
    rw [hfind]
    exact ⟨rfl, rfl, rfl⟩

/-- C4 witness: on the two-area input (`A` at 40%, `B` at 90%, both level 2,
current level 1, target level 2) the analyzer reports `Not Eligible`, names
`A` at 40% as the reason, and clamps conservative readiness to 40 + 5 = 45
instead of the 65% mean. -/
theorem C4_readiness_gating_witness :
    (calculate_next_level_readiness c4qs c4as).gating_status =
      "Not Eligible" ∧
    (calculate_next_level_readiness c4qs c4as).gating_reason =
      some ("A", 40) ∧
    (calculate_next_level_readiness c4qs c4as).conservative_readiness = 45 ∧
    (calculate_next_level_readiness c4qs c4as).target_level_readiness = 65 :=
  ⟨((C4_readiness_gating c4qs c4as).2.1 (by decide)).1,
   by decide, by decide, by decide⟩
